import Mathlib

/-!
# Verification of `src/map2.py`

Shallow embedding of the search utilities of `map2.py`: the coordinate
normalizer `convert_tm_to_wgs84`, the three provider clients
`search_tmap`, `search_naver_local`, `search_naver_geocode`, and the
orchestrator `smart_search_naver`.

Modelling conventions:
* Python floats are modelled as rationals (`ℚ`); the arithmetic the
  script performs (division by `10^7`, range comparisons) is exact on the
  inputs it sees.
* A raw JSON scalar reaching the coordinate code is a `RawVal`:
  `None`/absent, a string, or a number.  Python `float(...)` on it is
  `pyFloat`, which returns `none` exactly when Python raises.
* The HTTP request plus `response.raise_for_status()` plus
  `response.json()` is externalized as an `HttpResult` input: either the
  parsed body or an exception carrying its message.
* Each client function returns the Python return value paired with the
  list of `st.error` messages it emits; totality of the Lean functions
  models the fact that the Python functions catch every exception and
  never raise to their caller.  `st.write` debug output inside
  `convert_tm_to_wgs84` and the `st.info` notice inside
  `smart_search_naver` are operator diagnostics, not modelled.
* `smart_search_naver` additionally returns the ordered trace of
  provider invocations it performs (`List Call`), so that claims about
  "called exactly once" are statable.
-/

namespace Map2

/-- A raw JSON scalar as it reaches the coordinate code: Python `None`
(also used for an absent key fetched with `.get`), a string, or a
number. -/
inductive RawVal where
  | vNone : RawVal
  | vStr (s : String) : RawVal
  | vNum (q : ℚ) : RawVal
deriving DecidableEq

/-- Python truthiness of a raw value: `None` is falsy, a string is truthy
iff nonempty, a number is truthy iff nonzero. -/
def RawVal.truthy : RawVal → Bool
  | .vNone => false
  | .vStr s => if s = "" then false else true
  | .vNum q => if q = 0 then false else true

/-- Numeric value of a digit string, most significant digit first
(digits are mapped through their ASCII codes). -/
def digitsVal (cs : List Char) : ℕ :=
  cs.foldl (fun n c => 10 * n + (c.toNat - 48)) 0

/-- Split a character list at the first dot: integer part and, when a dot
is present, the remainder after it. -/
def splitDot : List Char → List Char × Option (List Char)
  | [] => ([], none)
  | c :: rest =>
      if c = '.' then ([], some rest)
      else
        let p := splitDot rest
        (c :: p.1, p.2)

/-- Python `float` on a string, restricted to plain decimal literals:
optional sign, digits, optional dot and fractional digits, with at least
one digit overall ("123", "-12.5", ".5", "7.").  Exponent and special
forms never occur for the coordinate strings this app handles.  Returns
`none` exactly when Python would raise `ValueError`. -/
def parseDec (s : String) : Option ℚ :=
  let cs := s.data
  let signedBody : ℚ × List Char :=
    match cs with
    | '-' :: rest => (-1, rest)
    | '+' :: rest => (1, rest)
    | _ => (1, cs)
  let sg := signedBody.1
  let p := splitDot signedBody.2
  match p.2 with
  | none =>
      if p.1 ≠ [] ∧ p.1.all Char.isDigit then
        some (sg * (digitsVal p.1 : ℚ))
      else none
  | some fp =>
      if (p.1 ≠ [] ∨ fp ≠ []) ∧ p.1.all Char.isDigit ∧ fp.all Char.isDigit then
        some (sg * ((digitsVal p.1 : ℚ) + (digitsVal fp : ℚ) / 10 ^ fp.length))
      else none

/-- Python `float(v)`: a number passes through, a string is parsed, and
`None` raises `TypeError` (modelled as `none`, like a parse failure). -/
def pyFloat : RawVal → Option ℚ
  | .vNone => none
  | .vStr s => parseDec s
  | .vNum q => some q

/-- `convert_tm_to_wgs84(x, y)` from `map2.py` (lines 127-160): checks
for `None`, converts both inputs with `float`, divides by `10^7`
(`x` is longitude, `y` is latitude), validates against the Korean
bounding box `33 < lat < 43 and 124 < lon < 132`, and returns
`(lat, lon)`; every failure path returns the sentinel `(None, None)`.
All exceptions are caught inside the function (totality of this
definition models that it never raises). -/
def convert_tm_to_wgs84 (x y : RawVal) : Option ℚ × Option ℚ :=
  if x = RawVal.vNone ∨ y = RawVal.vNone then (none, none)
  else
    match pyFloat x, pyFloat y with
    | some xv, some yv =>
        let lon := xv / 10000000
        let lat := yv / 10000000
        if 33 < lat ∧ lat < 43 ∧ 124 < lon ∧ lon < 132 then (some lat, some lon)
        else (none, none)
    | _, _ => (none, none)

/-- Python `str.replace` over character lists, with a fuel argument
bounding the recursion by the length of the subject (so the definition is
structural and kernel-evaluable): replaces every non-overlapping
occurrence of `pat` from left to right. -/
def replaceAux (pat rep : List Char) : ℕ → List Char → List Char
  | _, [] => []
  | 0, l => l
  | fuel + 1, c :: rest =>
      if pat ≠ [] ∧ (c :: rest).take pat.length = pat then
        rep ++ replaceAux pat rep fuel ((c :: rest).drop pat.length)
      else c :: replaceAux pat rep fuel rest

/-- Python `s.replace(pat, rep)`. -/
def pyReplace (s pat rep : String) : String :=
  ⟨replaceAux pat.data rep.data s.data.length s.data⟩

/-- The Place Record dictionary the clients build; the Python keys are
이름 (name), 주소 (address), 위도 (latitude), 경도 (longitude).  Every
record the script actually appends carries float coordinates, hence
plain `ℚ` fields here. -/
structure Place where
  name : String
  address : String
  latitude : ℚ
  longitude : ℚ
deriving DecidableEq

/-- Outcome of one HTTP request as seen by a client's `try` block: the
parsed JSON body, or an exception (transport failure, `raise_for_status`
on a non-success status, or a JSON decode error) with its message. -/
inductive HttpResult (α : Type) where
  | ok (data : α) : HttpResult α
  | err (e : String) : HttpResult α
deriving DecidableEq

/-- One element of `data["items"]` in the Naver local-search response.
An `Option` field set to `none` models an absent key (`item.get`
supplies the default); `mapx`/`mapy` are fetched with no default, so an
absent key is `RawVal.vNone`. -/
structure LocalItem where
  title : Option String
  mapx : RawVal
  mapy : RawVal
  roadAddress : Option String
deriving DecidableEq

/-- Parsed body of the Naver local-search response.  `total` is
`data.get("total", 0)`; `items` is `data.get("items")`, with an absent or
null key conflated with the empty list (both are falsy in the guard and
both leave the result list empty). -/
structure LocalResponse where
  total : Int
  items : List LocalItem
deriving DecidableEq

/-- The per-item loop body of `search_naver_local` (lines 198-214): strip
`<b>` and `</b>` from the title, convert the coordinates — guarded by
Python truthiness of the raw `mapx`/`mapy` (line 205) — and append the
record only when both converted components are truthy (line 208, where a
`None` or `0.0` component is falsy). -/
def localLoop : List LocalItem → List Place
  | [] => []
  | item :: rest =>
      let nm := pyReplace (pyReplace (item.title.getD "") "<b>" "") "</b>" ""
      let conv :=
        if item.mapx.truthy && item.mapy.truthy
        then convert_tm_to_wgs84 item.mapx item.mapy
        else (none, none)
      match conv with
      | (some la, some lo) =>
          if la ≠ 0 ∧ lo ≠ 0 then
            { name := nm, address := item.roadAddress.getD "",
              latitude := la, longitude := lo } :: localLoop rest
          else localLoop rest
      | _ => localLoop rest

/-- `search_naver_local(keyword, display, sort)` (lines 188-218), with
the HTTP exchange externalized as `resp`.  The request parameters do not
affect the response processing, so they are omitted here (the
orchestrator's call trace records them).  Returns the Python return
value paired with the emitted `st.error` messages. -/
def search_naver_local (resp : HttpResult LocalResponse) :
    Option (List Place) × List String :=
  match resp with
  | .err e => (none, ["네이버 API 오류: " ++ e])
  | .ok data =>
      if data.total > 0 ∧ data.items ≠ [] then (some (localLoop data.items), [])
      else (some [], [])

/-- One address candidate of the geocoding response. -/
structure GeoAddress where
  roadAddress : Option String
  jibunAddress : Option String
  y : Option RawVal
  x : Option RawVal
deriving DecidableEq

/-- Parsed body of the geocoding response; an absent or null `addresses`
key is conflated with the empty list (both falsy in the guard). -/
structure GeoResponse where
  status : Option String
  addresses : List GeoAddress
deriving DecidableEq

/-- `float(d.get(k, 0))` as used for `frontLat`, `frontLon`, `y`, `x`:
an absent key falls back to the integer `0` (so `float` yields `0.0`);
a present value goes through Python `float`, whose failure (`none`)
raises into the surrounding `except` block. -/
def floatOfField : Option RawVal → Option ℚ
  | none => some 0
  | some v => pyFloat v

/-- `search_naver_geocode(query)` (lines 222-241): on success with
status `"OK"` and a nonempty candidate list, builds exactly one record
from the first candidate, with `y`/`x` parsed directly as decimal
latitude/longitude; its `except` block returns `None` and emits no
message. -/
def search_naver_geocode (resp : HttpResult GeoResponse) :
    Option (List Place) × List String :=
  match resp with
  | .err _ => (none, [])
  | .ok data =>
      match data.addresses with
      | [] => (some [], [])
      | addr :: _ =>
          if data.status = some "OK" then
            match floatOfField addr.y, floatOfField addr.x with
            | some la, some lo =>
                (some [{ name := addr.roadAddress.getD "주소 정보 없음",
                         address := addr.jibunAddress.getD "",
                         latitude := la, longitude := lo }], [])
            | _, _ => (none, [])
          else (some [], [])

/-- One road-address variant inside `newAddressList.newAddress`. -/
structure TmapAddr where
  fullAddressRoad : Option String
deriving DecidableEq

/-- The `newAddressList` object of a POI item. -/
structure NewAddrList where
  newAddress : Option (List TmapAddr)
deriving DecidableEq

/-- One element of `searchPoiInfo.pois.poi` in the Tmap response. -/
structure TmapPoi where
  name : Option String
  newAddressList : Option NewAddrList
  frontLat : Option RawVal
  frontLon : Option RawVal
deriving DecidableEq

/-- The `searchPoiInfo` object; `pois = none` models a missing
`pois`/`poi` key, which raises `KeyError` on line 174. -/
structure TmapInfo where
  totalCount : Option String
  pois : Option (List TmapPoi)
deriving DecidableEq

/-- Parsed body of the Tmap POI response. -/
structure TmapResponse where
  searchPoiInfo : Option TmapInfo
deriving DecidableEq

/-- `data.get("searchPoiInfo", ...).get("totalCount", "0")` of line 173
(an absent `searchPoiInfo` gives the empty dict, whose `get` yields the
default `"0"`). -/
def tmapTotalCount (data : TmapResponse) : String :=
  match data.searchPoiInfo with
  | none => "0"
  | some si => si.totalCount.getD "0"

/-- Line 177 of `map2.py`:
`item.get("newAddressList", ...).get("newAddress", [...])[0].get("fullAddressRoad", "")`.
An absent `newAddressList` or absent `newAddress` key lands on the
one-empty-dict default, whose first element yields `""`; a PRESENT but
EMPTY `newAddress` list makes the `[0]` index raise `IndexError`. -/
def poiAddress (item : TmapPoi) : Except String String :=
  match item.newAddressList with
  | none => .ok ""
  | some lst =>
      match lst.newAddress with
      | none => .ok ""
      | some [] => .error "IndexError: list index out of range"
      | some (a :: _) => .ok (a.fullAddressRoad.getD "")

/-- The per-item loop of `search_tmap` (lines 174-180); an `Except.error`
is a Python exception propagating out of the loop into the function's
`except` handler (the message text is abstracted). -/
def tmapLoop : List TmapPoi → Except String (List Place)
  | [] => .ok []
  | item :: rest =>
      match poiAddress item, floatOfField item.frontLat, floatOfField item.frontLon with
      | .ok addr, some la, some lo =>
          (tmapLoop rest).map
            (fun ps => { name := item.name.getD "", address := addr,
                         latitude := la, longitude := lo } :: ps)
      | .error e, _, _ => .error e
      | _, none, _ => .error "ValueError: could not convert to float"
      | _, _, none => .error "ValueError: could not convert to float"

/-- `search_tmap(keyword, count)` (lines 164-184), with the HTTP
exchange externalized as `resp`.  Returns the Python return value paired
with the emitted `st.error` messages: any exception — transport/HTTP,
`KeyError` on line 174, `IndexError` or `ValueError` inside the loop —
is caught, one error message is shown, and `None` is returned. -/
def search_tmap (resp : HttpResult TmapResponse) :
    Option (List Place) × List String :=
  match resp with
  | .err e => (none, ["⚠️ 티맵 API 오류: " ++ e])
  | .ok data =>
      if tmapTotalCount data ≠ "0" then
        match data.searchPoiInfo with
        | none => (none, ["⚠️ 티맵 API 오류: KeyError"])
        | some si =>
            match si.pois with
            | none => (none, ["⚠️ 티맵 API 오류: KeyError"])
            | some items =>
                match tmapLoop items with
                | .ok ps => (some ps, [])
                | .error e => (none, ["⚠️ 티맵 API 오류: " ++ e])
      else (some [], [])

/-- One outbound provider invocation performed by the orchestrator,
with the arguments it was called with. -/
inductive Call where
  | localSearch (keyword : String) (display : Int) (sort : String) : Call
  | geocode (query : String) : Call
deriving DecidableEq

/-- Python truthiness of a result-list-or-None: `None` and `[]` are
falsy (the `if results:` tests on lines 246 and 252). -/
def resTruthy : Option (List Place) → Bool
  | none => false
  | some [] => false
  | some (_ :: _) => true

/-- `smart_search_naver(keyword, display, sort)` (lines 244-255).  The
two `HttpResult` arguments are the bodies the two endpoints would answer
with; the returned `List Call` is the ordered trace of provider
invocations actually performed.  The fallback `st.info` notice is
operator diagnostics, not modelled. -/
def smart_search_naver (keyword : String) (display : Int) (sort : String)
    (localResp : HttpResult LocalResponse) (geoResp : HttpResult GeoResponse) :
    (Option (List Place) × String) × List Call :=
  let r1 := (search_naver_local localResp).1
  if resTruthy r1 then
    ((r1, "지역 검색"), [Call.localSearch keyword display sort])
  else
    let r2 := (search_naver_geocode geoResp).1
    if resTruthy r2 then
      ((r2, "주소 검색 (Geocoding)"),
       [Call.localSearch keyword display sort, Call.geocode keyword])
    else
      ((none, "검색 실패"),
       [Call.localSearch keyword display sort, Call.geocode keyword])

/-! ## Helper lemmas -/

/-- `convert_tm_to_wgs84` returns either the full sentinel or a fully
populated in-box pair. -/
lemma convert_shape (x y : RawVal) :
    convert_tm_to_wgs84 x y = (none, none) ∨
    ∃ la lo, convert_tm_to_wgs84 x y = (some la, some lo) ∧
      33 < la ∧ la < 43 ∧ 124 < lo ∧ lo < 132 := by
  unfold convert_tm_to_wgs84
  split
  · exact Or.inl rfl
  rcases hpx : pyFloat x with _ | qx <;> rcases hpy : pyFloat y with _ | qy
  · exact Or.inl rfl
  · exact Or.inl rfl
  · exact Or.inl rfl
  · by_cases hb : 33 < qy / 10000000 ∧ qy / 10000000 < 43 ∧
        124 < qx / 10000000 ∧ qx / 10000000 < 132
    · exact Or.inr ⟨_, _, if_pos hb, hb.1, hb.2.1, hb.2.2.1, hb.2.2.2⟩
    · exact Or.inl (if_neg hb)

/-! ## Claims -/

/-- C1: for every raw coordinate pair `(x, y)` whose values are
numerically parseable and where `x/1e7` lies in `(124, 132)` and `y/1e7`
lies in `(33, 43)`, `convert_tm_to_wgs84` returns exactly the pair
`(y/1e7, x/1e7)` as `(latitude, longitude)`. -/
theorem C1_normalizer_in_box (x y : RawVal) (qx qy : ℚ)
    (hx : pyFloat x = some qx) (hy : pyFloat y = some qy)
    (hlon1 : 124 < qx / 10000000) (hlon2 : qx / 10000000 < 132)
    (hlat1 : 33 < qy / 10000000) (hlat2 : qy / 10000000 < 43) :
    convert_tm_to_wgs84 x y = (some (qy / 10000000), some (qx / 10000000)) := by
  have hn : ¬(x = RawVal.vNone ∨ y = RawVal.vNone) := by
    rintro (rfl | rfl) <;> simp [pyFloat] at hx hy
  unfold convert_tm_to_wgs84
  rw [if_neg hn, hx, hy]
  exact if_pos ⟨hlat1, hlat2, hlon1, hlon2⟩

/-- Witness for C1 at the concrete parseable pair
`(1269780000, 375665000)`. -/
theorem C1_witness :
    convert_tm_to_wgs84 (RawVal.vNum 1269780000) (RawVal.vNum 375665000)
      = (some ((375665000 : ℚ) / 10000000), some ((1269780000 : ℚ) / 10000000)) :=
  C1_normalizer_in_box _ _ _ _ rfl rfl (by norm_num) (by norm_num)
    (by norm_num) (by norm_num)

/-- C2: for every input pair where `x` or `y` is absent (`None`) or not
numerically parseable, `convert_tm_to_wgs84` returns the sentinel
`(None, None)` (and, being total, never raises); likewise for every
parseable pair whose decoded point falls outside the
`(33, 43)` latitude / `(124, 132)` longitude box. -/
theorem C2_normalizer_sentinel (x y : RawVal) :
    (pyFloat x = none ∨ pyFloat y = none → convert_tm_to_wgs84 x y = (none, none)) ∧
    (∀ qx qy : ℚ, pyFloat x = some qx → pyFloat y = some qy →
      ¬(33 < qy / 10000000 ∧ qy / 10000000 < 43 ∧
        124 < qx / 10000000 ∧ qx / 10000000 < 132) →
      convert_tm_to_wgs84 x y = (none, none)) := by
  constructor
  · intro h
    unfold convert_tm_to_wgs84
    split
    · rfl
    rcases hpx : pyFloat x with _ | qx <;> rcases hpy : pyFloat y with _ | qy
    · rfl
    · rfl
    · rfl
    · rw [hpx, hpy] at h
      rcases h with h | h <;> exact Option.noConfusion h
  · intro qx qy hx hy hbox
    have hn : ¬(x = RawVal.vNone ∨ y = RawVal.vNone) := by
      rintro (rfl | rfl) <;> simp [pyFloat] at hx hy
    unfold convert_tm_to_wgs84
    rw [if_neg hn, hx, hy]
    exact if_neg hbox

/-- Witness for C2: an unparseable string and a decoded point outside
the box both yield the sentinel. -/
theorem C2_witness :
    convert_tm_to_wgs84 (RawVal.vStr "abc") (RawVal.vNum 375678000) = (none, none) ∧
    convert_tm_to_wgs84 (RawVal.vNum 10) (RawVal.vNum 20) = (none, none) :=
  ⟨(C2_normalizer_sentinel _ _).1 (Or.inl rfl),
   (C2_normalizer_sentinel _ _).2 10 20 rfl rfl (by norm_num)⟩

/-- Every record `localLoop` keeps has both coordinates inside the
bounding box (they came out of `convert_tm_to_wgs84` non-sentinel). -/
lemma localLoop_mem (items : List LocalItem) (p : Place) :
    p ∈ localLoop items →
    33 < p.latitude ∧ p.latitude < 43 ∧ 124 < p.longitude ∧ p.longitude < 132 := by
  induction items with
  | nil => intro hp; simp [localLoop] at hp
  | cons item rest ih =>
      intro hp
      rw [localLoop] at hp
      split at hp
      · next la lo heq =>
          split at hp
          · rcases List.mem_cons.mp hp with rfl | hmem
            · split at heq
              · rcases convert_shape item.mapx item.mapy with hc | ⟨la2, lo2, hc, hbox⟩
                · rw [hc] at heq
                  exact absurd heq (by simp)
                · rw [hc] at heq
                  have h1 : la2 = la := by
                    have := congrArg Prod.fst heq
                    simpa using this
                  have h2 : lo2 = lo := by
                    have := congrArg Prod.snd heq
                    simpa using this
                  subst h1; subst h2
                  exact hbox
              · exact absurd heq (by simp)
            · exact ih hmem
          · exact ih hp
      · exact ih hp

/-- C9: `convert_tm_to_wgs84` never returns a half-populated pair — its
result is the full sentinel or a pair of present in-box components — and
consequently every Place Record in a list returned by
`search_naver_local` has coordinates inside the box. -/
theorem C9_result_shape_invariant :
    (∀ x y : RawVal, convert_tm_to_wgs84 x y = (none, none) ∨
       ∃ la lo, convert_tm_to_wgs84 x y = (some la, some lo) ∧
         33 < la ∧ la < 43 ∧ 124 < lo ∧ lo < 132) ∧
    (∀ (resp : HttpResult LocalResponse) (ps : List Place),
       (search_naver_local resp).1 = some ps →
       ∀ p ∈ ps, 33 < p.latitude ∧ p.latitude < 43 ∧
                 124 < p.longitude ∧ p.longitude < 132) := by
  constructor
  · exact convert_shape
  · intro resp ps hps p hp
    match resp with
    | .err e => simp [search_naver_local] at hps
    | .ok data =>
        rw [search_naver_local] at hps
        split at hps
        · simp only [Option.some.injEq] at hps
          subst hps
          exact localLoop_mem data.items p hp
        · simp only [Option.some.injEq] at hps
          subst hps
          simp at hp

/-- Witness for C9 on a concrete one-item local-search response: the
produced record's coordinates are inside the box. -/
theorem C9_witness :
    33 < ((375665000 : ℚ) / 10000000) ∧ ((375665000 : ℚ) / 10000000) < 43 ∧
    124 < ((1269780000 : ℚ) / 10000000) ∧ ((1269780000 : ℚ) / 10000000) < 132 :=
  C9_result_shape_invariant.2
    (.ok { total := 1,
           items := [{ title := some "N", mapx := RawVal.vNum 1269780000,
                       mapy := RawVal.vNum 375665000, roadAddress := none }] })
    [{ name := "N", address := "", latitude := (375665000 : ℚ) / 10000000,
       longitude := (1269780000 : ℚ) / 10000000 }]
    (by
      norm_num [search_naver_local, localLoop, convert_tm_to_wgs84, pyFloat,
        RawVal.truthy]
      rw [if_neg (by rintro (h | h) <;> exact RawVal.noConfusion h)]
      norm_num
      rfl)
    { name := "N", address := "", latitude := (375665000 : ℚ) / 10000000,
      longitude := (1269780000 : ℚ) / 10000000 }
    (by simp)

/-- C8: on a business-search response containing one item with title
containing emphasis markup and fixed-point coordinates
`mapx = 1270594000`, `mapy = 375678000`, `search_naver_local` strips the
markup and normalizes the coordinates into the exact Place Record with
latitude `37.5678` and longitude `127.0594`. -/
theorem C8_acme_scenario :
    search_naver_local
        (.ok { total := 1,
               items := [{ title := some "<b>Acme</b> Cafe",
                           mapx := RawVal.vNum 1270594000,
                           mapy := RawVal.vNum 375678000,
                           roadAddress := some "Seoul Road 1" }] })
      = (some [{ name := "Acme Cafe", address := "Seoul Road 1",
                 latitude := 375678 / 10000, longitude := 1270594 / 10000 }], []) := by
  norm_num [search_naver_local, localLoop, convert_tm_to_wgs84, pyFloat, RawVal.truthy]
  rw [if_neg (by rintro (h | h) <;> exact RawVal.noConfusion h)]
  norm_num
  rfl

/-- C3: when the business/local search yields nothing (zero total
matches, or the failure sentinel `None`), the orchestrator's trace is
exactly one local-search call followed by one geocoding call with the
same query string (so geocoding runs exactly once and the business
search is never re-invoked); and if geocoding also yields nothing, the
outcome is `(None, "검색 실패")` (totality models "without raising"). -/
theorem C3_fallback_chain (k : String) (d : Int) (s : String)
    (localResp : HttpResult LocalResponse) (geoResp : HttpResult GeoResponse)
    (h : (search_naver_local localResp).1 = none ∨
         ∃ data, localResp = .ok data ∧ data.total = 0) :
    (smart_search_naver k d s localResp geoResp).2
      = [Call.localSearch k d s, Call.geocode k] ∧
    ((search_naver_geocode geoResp).1 = none ∨
        (search_naver_geocode geoResp).1 = some [] →
      (smart_search_naver k d s localResp geoResp).1 = (none, "검색 실패")) := by
  have h1 : resTruthy (search_naver_local localResp).1 = false := by
    rcases h with h | ⟨data, rfl, htot⟩
    · rw [h]; rfl
    · rw [search_naver_local]
      have : ¬(data.total > 0 ∧ data.items ≠ []) := by
        rintro ⟨hgt, -⟩; rw [htot] at hgt; exact lt_irrefl 0 hgt
      rw [if_neg this]
      rfl
  constructor
  · simp only [smart_search_naver, h1]
    rw [if_neg Bool.false_ne_true]
    split <;> rfl
  · intro hg
    have h2 : resTruthy (search_naver_geocode geoResp).1 = false := by
      rcases hg with hg | hg <;> rw [hg] <;> rfl
    simp [smart_search_naver, h1, h2]

/-- Witness for C3 at a concrete zero-total local response and a failed
geocoding call. -/
theorem C3_witness :
    (smart_search_naver "SK T타워" 5 "random"
        (.ok { total := 0, items := [] }) (.err "ConnectionError")).2
      = [Call.localSearch "SK T타워" 5 "random", Call.geocode "SK T타워"] ∧
    (smart_search_naver "SK T타워" 5 "random"
        (.ok { total := 0, items := [] }) (.err "ConnectionError")).1
      = (none, "검색 실패") := by
  have h := C3_fallback_chain "SK T타워" 5 "random"
    (.ok { total := 0, items := [] }) (.err "ConnectionError")
    (Or.inr ⟨_, rfl, rfl⟩)
  exact ⟨h.1, h.2 (Or.inl rfl)⟩

/-- C4: when the business/local search returns a nonempty record list,
the orchestrator returns exactly that list labeled "지역 검색" and its
trace contains no geocoding call. -/
theorem C4_local_mode (k : String) (d : Int) (s : String)
    (localResp : HttpResult LocalResponse) (geoResp : HttpResult GeoResponse)
    (ps : List Place) (hne : ps ≠ [])
    (h : (search_naver_local localResp).1 = some ps) :
    (smart_search_naver k d s localResp geoResp).1 = (some ps, "지역 검색") ∧
    (smart_search_naver k d s localResp geoResp).2 = [Call.localSearch k d s] := by
  cases ps with
  | nil => exact absurd rfl hne
  | cons a l =>
      constructor
      · simp [smart_search_naver, resTruthy, h]
      · simp [smart_search_naver, resTruthy, h]

/-- Witness for C4 at a concrete one-item local-search response. -/
theorem C4_witness :
    (smart_search_naver "Acme" 5 "comment"
        (.ok { total := 1,
               items := [{ title := some "Acme", mapx := RawVal.vNum 1270594000,
                           mapy := RawVal.vNum 375678000, roadAddress := some "R" }] })
        (.err "unused")).1
      = (some [{ name := "Acme", address := "R",
                 latitude := (375678000 : ℚ) / 10000000,
                 longitude := (1270594000 : ℚ) / 10000000 }], "지역 검색") := by
  have h := C4_local_mode "Acme" 5 "comment"
    (.ok { total := 1,
           items := [{ title := some "Acme", mapx := RawVal.vNum 1270594000,
                       mapy := RawVal.vNum 375678000, roadAddress := some "R" }] })
    (.err "unused")
    [{ name := "Acme", address := "R",
       latitude := (375678000 : ℚ) / 10000000,
       longitude := (1270594000 : ℚ) / 10000000 }]
    (by simp)
    (by
      norm_num [search_naver_local, localLoop, convert_tm_to_wgs84, pyFloat,
        RawVal.truthy]
      rw [if_neg (by rintro (h | h) <;> exact RawVal.noConfusion h)]
      norm_num
      rfl)
  exact h.1

/-- C5 counterexample: on a transport error, `search_naver_geocode`
returns the failure sentinel but emits NO user-visible error message
(its `except` block on lines 240-241 has no `st.error` call), refuting
the claim that every provider call surfaces a one-line message. -/
theorem C5_counterexample :
    search_naver_geocode (HttpResult.err "ConnectionError") = (none, []) := rfl

/-- C5 (amended): on a transport/HTTP error, every provider call is
caught locally and returns the failure sentinel `None`; `search_tmap`
and `search_naver_local` additionally surface exactly one user-visible
error message, while `search_naver_geocode` emits none. -/
theorem C5_amended_error_handling (e : String) :
    search_tmap (HttpResult.err e) = (none, ["⚠️ 티맵 API 오류: " ++ e]) ∧
    search_naver_local (HttpResult.err e) = (none, ["네이버 API 오류: " ++ e]) ∧
    search_naver_geocode (HttpResult.err e) = (none, []) :=
  ⟨rfl, rfl, rfl⟩

/-- Witness for C5 (amended) at a concrete HTTP error. -/
theorem C5_witness :
    search_tmap (HttpResult.err "500 Internal Server Error")
      = (none, ["⚠️ 티맵 API 오류: 500 Internal Server Error"]) ∧
    search_naver_local (HttpResult.err "500 Internal Server Error")
      = (none, ["네이버 API 오류: 500 Internal Server Error"]) ∧
    search_naver_geocode (HttpResult.err "500 Internal Server Error")
      = (none, []) :=
  C5_amended_error_handling "500 Internal Server Error"

/-- C6 counterexample: a POI item whose `newAddressList` is present with
an EMPTY `newAddress` list does not get an empty-string address — the
`[0]` index raises `IndexError`, the whole call is aborted by the
`except` handler, and `search_tmap` returns the failure sentinel. -/
theorem C6_counterexample :
    search_tmap
        (.ok { searchPoiInfo :=
                 some { totalCount := some "1",
                        pois := some [{ name := some "Acme",
                                        newAddressList :=
                                          some { newAddress := some [] },
                                        frontLat := some (RawVal.vNum 37),
                                        frontLon := some (RawVal.vNum 127) }] } })
      = (none, ["⚠️ 티맵 API 오류: IndexError: list index out of range"]) := rfl

/-- C6 (amended): for a POI item whose road-address STRUCTURE is absent
(the `newAddressList` key missing, or its `newAddress` key missing) the
item's address is recorded as the empty string and the call succeeds
with the item's remaining fields; a present-but-empty `newAddress` list
instead aborts the whole call with the failure sentinel (see the
counterexample). -/
theorem C6_amended_absent_structure (item : TmapPoi) (la lo : ℚ)
    (haddr : item.newAddressList = none ∨
      ∃ l, item.newAddressList = some l ∧ l.newAddress = none)
    (hla : floatOfField item.frontLat = some la)
    (hlo : floatOfField item.frontLon = some lo) :
    search_tmap (.ok { searchPoiInfo :=
                         some { totalCount := some "1", pois := some [item] } })
      = (some [{ name := item.name.getD "", address := "",
                 latitude := la, longitude := lo }], []) := by
  have ha : poiAddress item = .ok "" := by
    rcases haddr with hnl | ⟨l, hl, hn⟩
    · simp [poiAddress, hnl]
    · simp [poiAddress, hl, hn]
  simp [search_tmap, tmapTotalCount, tmapLoop, Except.map, ha, hla, hlo]

/-- Witness for C6 (amended) at a concrete item with no
`newAddressList` key. -/
theorem C6_witness :
    search_tmap
        (.ok { searchPoiInfo :=
                 some { totalCount := some "1",
                        pois := some [{ name := some "Shop",
                                        newAddressList := none,
                                        frontLat := some (RawVal.vNum 37),
                                        frontLon := some (RawVal.vNum 127) }] } })
      = (some [{ name := "Shop", address := "",
                 latitude := 37, longitude := 127 }], []) :=
  C6_amended_absent_structure
    { name := some "Shop", newAddressList := none,
      frontLat := some (RawVal.vNum 37), frontLon := some (RawVal.vNum 127) }
    37 127 (Or.inl rfl) rfl rfl

/-- C7: a non-success HTTP status (e.g. 500) makes `search_tmap` return
the failure sentinel `None`, which is distinct from the empty list used
for zero results, and — the Lean function being total — no exception
propagates to the caller. -/
theorem C7_error_vs_empty (e : String) (data : TmapResponse)
    (hzero : tmapTotalCount data = "0") :
    (search_tmap (HttpResult.err e)).1 = none ∧
    (search_tmap (HttpResult.ok data)).1 = some [] ∧
    (none : Option (List Place)) ≠ some [] := by
  refine ⟨rfl, ?_, by simp⟩
  simp [search_tmap, hzero]

/-- Witness for C7 at an HTTP 500 error and a zero-count response. -/
theorem C7_witness :
    (search_tmap (HttpResult.err "500 Server Error")).1 = none ∧
    (search_tmap (HttpResult.ok { searchPoiInfo := none })).1 = some [] ∧
    (none : Option (List Place)) ≠ some [] :=
  C7_error_vs_empty "500 Server Error" { searchPoiInfo := none } rfl

/-- Items and produced records of a successful `tmapLoop` run correspond
pointwise, and an item with an absent `frontLat` (resp. `frontLon`)
yields the default coordinate `0`. -/
lemma tmapLoop_defaults (items : List TmapPoi) (ps : List Place)
    (h : tmapLoop items = .ok ps) :
    List.Forall₂ (fun (item : TmapPoi) (p : Place) =>
      (item.frontLat = none → p.latitude = 0) ∧
      (item.frontLon = none → p.longitude = 0)) items ps := by
  induction items generalizing ps with
  | nil =>
      rw [tmapLoop] at h
      cases h
      exact List.Forall₂.nil
  | cons item rest ih =>
      rw [tmapLoop] at h
      split at h
      · next addr la lo ha hla hlo =>
          cases hr : tmapLoop rest with
          | error e => rw [hr] at h; exact absurd h (by simp [Except.map])
          | ok qs =>
              rw [hr] at h
              simp only [Except.map, Except.ok.injEq] at h
              subst h
              refine List.Forall₂.cons ⟨?_, ?_⟩ (ih qs hr)
              · intro hnone
                rw [hnone] at hla
                simp only [floatOfField, Option.some.injEq] at hla
                exact hla.symm
              · intro hnone
                rw [hnone] at hlo
                simp only [floatOfField, Option.some.injEq] at hlo
                exact hlo.symm
      · exact absurd h (by simp)
      · exact absurd h (by simp)
      · exact absurd h (by simp)

/-- C10: coordinates in `search_tmap` output are never absent — when a
successful call processes a list of POI items, the produced Place
Records correspond to the items one-to-one, and an item lacking the
`frontLat` (resp. `frontLon`) field yields the present default value
`0.0` for that coordinate (an out-of-box value, not a
missing-coordinate sentinel; `Place.latitude`/`Place.longitude` being
total `ℚ` fields models presence). -/
theorem C10_absent_coord_defaults (data : TmapResponse) (si : TmapInfo)
    (items : List TmapPoi) (ps : List Place)
    (hsi : data.searchPoiInfo = some si) (hpois : si.pois = some items)
    (htc : tmapTotalCount data ≠ "0")
    (h : (search_tmap (.ok data)).1 = some ps) :
    List.Forall₂ (fun (item : TmapPoi) (p : Place) =>
      (item.frontLat = none → p.latitude = 0) ∧
      (item.frontLon = none → p.longitude = 0)) items ps := by
  rw [search_tmap, if_pos htc] at h
  simp only [hsi, hpois] at h
  cases hl : tmapLoop items with
  | error e => simp only [hl] at h; exact Option.noConfusion h
  | ok qs =>
      simp only [hl, Option.some.injEq] at h
      subst h
      exact tmapLoop_defaults items qs hl

/-- Witness for C10 at a two-item response whose first item lacks both
coordinate fields. -/
theorem C10_witness :
    List.Forall₂ (fun (item : TmapPoi) (p : Place) =>
      (item.frontLat = none → p.latitude = 0) ∧
      (item.frontLon = none → p.longitude = 0))
      [{ name := some "A", newAddressList := none,
         frontLat := none, frontLon := none },
       { name := some "B", newAddressList := none,
         frontLat := some (RawVal.vNum 37), frontLon := some (RawVal.vNum 127) }]
      [{ name := "A", address := "", latitude := 0, longitude := 0 },
       { name := "B", address := "", latitude := 37, longitude := 127 }] :=
  C10_absent_coord_defaults
    { searchPoiInfo :=
        some { totalCount := some "2",
               pois := some [{ name := some "A", newAddressList := none,
                               frontLat := none, frontLon := none },
                             { name := some "B", newAddressList := none,
                               frontLat := some (RawVal.vNum 37),
                               frontLon := some (RawVal.vNum 127) }] } }
    { totalCount := some "2",
      pois := some [{ name := some "A", newAddressList := none,
                      frontLat := none, frontLon := none },
                    { name := some "B", newAddressList := none,
                      frontLat := some (RawVal.vNum 37),
                      frontLon := some (RawVal.vNum 127) }] }
    _ _ rfl rfl (by simp [tmapTotalCount]) rfl

end Map2
